import Mathlib

/-!
Verification of the BCS bleeding-risk prediction app (`src/app.py`) against its
natural-language specification.

The script is shallowly embedded: Python floats become `ℚ`, `round(x, 2)`
becomes round-half-to-even on rationals, exceptions become `Option`/sum-like
results, and the Streamlit UI is modelled as the list of elements a script run
emits.  Third-party behaviour that the script merely triggers (xgboost raising
on a feature-shape mismatch, joblib raising on a missing file) is modelled at
the call boundary, exactly where the script observes it.
-/

namespace BCS

/-! Section: Rounding and risk classification (app.py lines 83-98) -/

/-- Python `round` to an integer, rounding halves to even
(banker's rounding), on an exact rational. -/
def roundHalfEven (x : ℚ) : ℤ :=
  let f := Rat.floor x
  let r := x - (f : ℚ)
  if r < 1/2 then f
  else if 1/2 < r then f + 1
  else if f % 2 = 0 then f else f + 1

/-- Python `round(x, 2)`: round to two decimal places, halves to even. -/
def pyRound2 (x : ℚ) : ℚ := (roundHalfEven (x * 100) : ℚ) / 100

/-- Source `risk_percent = round(prob * 100, 2)` (app.py line 84). -/
def risk_percent (prob : ℚ) : ℚ := pyRound2 (prob * 100)

/-- The three risk tiers of the spec's `RiskAssessment`. -/
inductive Tier where
  | low
  | medium
  | high
deriving DecidableEq, Repr

/-- The if/elif/else chain on `risk_percent` (app.py lines 87-98):
`risk_percent >= 30` is high, `risk_percent >= 10` is medium, else low. -/
def tier_of_percent (rp : ℚ) : Tier :=
  if 30 ≤ rp then .high
  else if 10 ≤ rp then .medium
  else .low

/-- Source `risk_level` string chosen by the chain (lines 88, 92, 96). -/
def tier_label : Tier → String
  | .high => "高危"
  | .medium => "中危"
  | .low => "低危"

/-- Source `advice` string chosen by the chain (lines 89, 93, 97). -/
def tier_advice : Tier → String
  | .high => "立即住院监测，优先安排内镜检查，考虑预防性TIPS"
  | .medium => "每2周门诊随访，启动非选择性β受体阻滞剂治疗"
  | .low => "每3个月常规随访，维持抗凝治疗"

/-- Source `color` token chosen by the chain (lines 90, 94, 98). -/
def tier_color : Tier → String
  | .high => "#FF4B4B"
  | .medium => "#FFA500"
  | .low => "#2E86C1"

/-- The tier assigned to a scored probability: the chain runs on the already
rounded `risk_percent`, not on `prob` itself (lines 84-98). -/
def classify (prob : ℚ) : Tier := tier_of_percent (risk_percent prob)

end BCS

namespace BCS

/-! Section: The model object and scoring (app.py lines 36-39, 79-84) -/

/-- The loaded classifier as the script observes it: the `isinstance` test,
the `n_classes_` attribute, the expected input width, and the positive-class
probability it computes for a width-matching input row. -/
structure ModelObj where
  isXGBClassifier : Bool
  n_classes_ : ℕ
  n_features_in_ : ℕ
  score : List ℚ → ℚ

/-- Source `model.predict_proba(input_df)` (line 83): xgboost raises a feature-shape
error when the row's width differs from `n_features_in_` (modelled as `none`);
otherwise it returns the one-row class-probability matrix `[[p0, p1]]`. -/
def predict_proba (m : ModelObj) (xs : List ℚ) : Option (List (List ℚ)) :=
  if xs.length = m.n_features_in_ then some [[1 - m.score xs, m.score xs]]
  else none

/-- Source `prob = model.predict_proba(input_df)[0][1]` (line 83). -/
def scored_prob (m : ModelObj) (xs : List ℚ) : Option ℚ :=
  (predict_proba m xs).map (fun rows => (rows.headD []).getD 1 0)

end BCS

namespace BCS

/-! Section: Asset loading (app.py lines 19-57) -/

/-- The environment `load_assets` reads: whether the assets directory exists,
what `joblib.load` of the model file yields (`none` when the file is missing
or unreadable, so `joblib.load` raises), whether `shap.TreeExplainer`
construction succeeds, and what the feature-name pickle yields. -/
structure AssetEnv where
  assets_dir_exists : Bool
  model_file : Option ModelObj
  explainer_init_ok : Bool
  feature_names_file : Option (List String)

/-- Outcome of `load_assets`: either the loaded model and feature names, or
the `except` branch, which shows `st.error` and calls `sys.exit(1)`
(lines 53-55). -/
inductive LoadResult where
  | ok (model : ModelObj) (feature_names : List String)
  | exitError

/-- Source `load_assets` (lines 20-55), with the checks in source order: assets
directory present, model unpickles, `isinstance(model, xgboost.XGBClassifier)`,
`model.n_classes_ == 2`, explainer construction, feature-name unpickle.  Any
raised exception lands in the `except` branch (`exitError`). -/
def load_assets (env : AssetEnv) : LoadResult :=
  if env.assets_dir_exists = false then .exitError
  else
    match env.model_file with
    | none => .exitError
    | some model =>
      if model.isXGBClassifier = false then .exitError
      else if model.n_classes_ ≠ 2 then .exitError
      else if env.explainer_init_ok = false then .exitError
      else
        match env.feature_names_file with
        | none => .exitError
        | some feature_names => .ok model feature_names

/-- Line 57: the module-level `model, explainer, feature_names =
load_assets()`.  When `load_assets` hits its `except` branch the process has
exited, so no application state exists and nothing is ever served. -/
def startApp (env : AssetEnv) : Option (ModelObj × List String) :=
  match load_assets env with
  | .ok m fns => some (m, fns)
  | .exitError => none

end BCS

namespace BCS

/-! Section: Sidebar input collection (app.py lines 65-75) -/

/-- Python `pat in s`: contiguous-substring containment on character lists. -/
def startsWithChars : List Char → List Char → Bool
  | [], _ => true
  | _ :: _, [] => false
  | p :: ps, c :: cs => p == c && startsWithChars ps cs

/-- Auxiliary scan for substring containment. -/
def hasSubAux (pat : List Char) : List Char → Bool
  | [] => pat == []
  | c :: cs => startsWithChars pat (c :: cs) || hasSubAux pat cs

/-- Python `pat in s` on strings. -/
def strContains (s pat : String) : Bool := hasSubAux pat.toList s.toList

/-- Whether a feature name hits any of the four `if`/`elif` branches of the
input loop (lines 67-74): NLR, platelet ratio, portal vein, collagen IV. -/
def matched (f : String) : Bool :=
  strContains f "NLR" || strContains f "血小板" ||
    strContains f "门静脉" || strContains f "IV型胶原"

/-- The sidebar loop (lines 65-75).  `vals f` is the value held by feature
`f`'s number-input widget.  The loop variable `val` is assigned only in the
four matched branches; `input_values.append(val)` otherwise reuses the
previous iteration's `val`, and raises `NameError` (modelled `none`) when no
`val` has ever been assigned. -/
def input_loop (vals : String → ℚ) : List String → Option ℚ → Option (List ℚ)
  | [], _ => some []
  | f :: rest, prev =>
    let cur := if matched f then some (vals f) else prev
    match cur with
    | none => none
    | some v => (input_loop vals rest (some v)).map (fun xs => v :: xs)

/-- Source `input_values` as collected for the feature-name list (line 65: starts
with no `val` bound). -/
def input_values (vals : String → ℚ) (fs : List String) : Option (List ℚ) :=
  input_loop vals fs none

end BCS

namespace BCS

/-! Section: SHAP output selection (app.py lines 127-132) -/

/-- Shape of `explainer.expected_value`: a scalar, or a two-entry array
(one baseline per class). -/
inductive ExpectedValue where
  | scalar (v : ℚ)
  | array2 (v0 v1 : ℚ)

/-- Shape of `explainer.shap_values(input_df)`: a single samples×features
array, or a Python list with one such array per class. -/
inductive ShapValuesShape where
  | arr (rows : List (List ℚ))
  | listPerClass (class0 class1 : List (List ℚ))

/-- A Python value produced by the selection: a 1-D row or a 2-D array. -/
inductive PyValue where
  | vec (xs : List ℚ)
  | mat (rows : List (List ℚ))
deriving DecidableEq, Repr

/-- Source `base_value` (lines 127-131): `expected_value[1]` when the expected value
is an ndarray, otherwise the scalar itself. -/
def base_value : ExpectedValue → ℚ
  | .array2 _ v1 => v1
  | .scalar v => v

/-- Source `sv` (lines 128-132): under an ndarray expected value,
`shap_values[1][0]` if `shap_values` is a list else `shap_values[0]`;
under a scalar expected value, `shap_values[0]` — which, when `shap_values`
is a per-class list, is the whole class-0 array. -/
def sv_select (ev : ExpectedValue) (s : ShapValuesShape) : PyValue :=
  match ev with
  | .array2 _ _ =>
    match s with
    | .listPerClass _ class1 => .vec (class1.headD [])
    | .arr rows => .vec (rows.headD [])
  | .scalar _ =>
    match s with
    | .listPerClass class0 _ => .mat class0
    | .arr rows => .vec (rows.headD [])

end BCS

namespace BCS

/-! Section: The predict-button handler (app.py lines 78-152) -/

/-- A UI element emitted during one run of the handler. -/
inductive UIElem where
  | subheader (title : String)
  | resultPanel (rp : ℚ) (level advice color : String)
  | shapImage
  | errorMsg
deriving DecidableEq, Repr

/-- One run of the `if predict_button:` body (lines 78-152).  Everything sits
in a single `try`: scoring happens first; the result panel (line 102) renders
the rounded `risk_percent` with the tier strings; the SHAP computation and the
plot rendering can each raise, landing in the `except` branch (line 152) which
emits `st.error` after whatever was already rendered.  `shap_ok` and
`render_ok` model whether those external calls succeed. -/
def run_predict (m : ModelObj) (xs : List ℚ) (shap_ok render_ok : Bool) :
    List UIElem :=
  match scored_prob m xs with
  | none => [.errorMsg]
  | some prob =>
    let rp := risk_percent prob
    let t := tier_of_percent rp
    let shown : List UIElem :=
      [.subheader "预测结果",
       .resultPanel rp (tier_label t) (tier_advice t) (tier_color t),
       .subheader "风险解释"]
    if shap_ok = false then shown ++ [.errorMsg]
    else if render_ok = false then shown ++ [.errorMsg]
    else shown ++ [.shapImage]

end BCS

namespace BCS

/-! Section: Concrete sample objects used to instantiate theorems -/

/-- A well-formed loaded classifier: an XGBClassifier with 2 classes and
4 input features, scoring every row at probability 1/2. -/
def modelW : ModelObj := ⟨true, 2, 4, fun _ => 1/2⟩

/-- The spec's end-to-end sample input
{NLR=3.5, platelet-ratio=18.0, portal-vein-width=14.0, collagen-IV=200.0}. -/
def inputW : List ℚ := [7/2, 18, 14, 200]

/-- An asset environment whose feature-name list (length 1) disagrees with
the classifier's 4-feature input width, everything else valid. -/
def envShortNames : AssetEnv := ⟨true, some modelW, true, some ["NLR"]⟩

/-- An asset environment whose model file is missing, so `joblib.load`
raises. -/
def envNoModel : AssetEnv := ⟨true, none, true, some []⟩

end BCS

namespace BCS

/-! Section: Helper lemmas -/

theorem input_loop_length (vals : String → ℚ) :
    ∀ (fs : List String) (prev : Option ℚ) (xs : List ℚ),
      input_loop vals fs prev = some xs → xs.length = fs.length := by
  intro fs
  induction fs with
  | nil => intro prev xs h; simp [input_loop] at h; simp [← h]
  | cons f rest ih =>
    intro prev xs h
    simp only [input_loop] at h
    split at h
    · exact absurd h (by simp)
    · obtain ⟨ys, hys, hxs⟩ := Option.map_eq_some'.mp h
      subst hxs
      simp [ih _ ys hys]

theorem input_loop_stale (vals : String → ℚ) :
    ∀ (fs : List String) (prev : Option ℚ) (xs : List ℚ) (i : ℕ) (g : String),
      input_loop vals fs prev = some xs → fs.get? (i + 1) = some g →
      matched g = false → xs.get? (i + 1) = xs.get? i := by
  intro fs
  induction fs with
  | nil => intro prev xs i g h hg; simp at hg
  | cons f rest ih =>
    intro prev xs i g h hg hm
    simp only [input_loop] at h
    split at h
    · exact absurd h (by simp)
    · obtain ⟨ys, hys, hxs⟩ := Option.map_eq_some'.mp h
      subst hxs
      simp only [List.get?_cons_succ] at hg
      rename_i v _
      cases i with
      | zero =>
        cases rest with
        | nil => simp at hg
        | cons g2 rest2 =>
          simp only [List.get?_cons_zero, Option.some_inj] at hg
          subst hg
          simp only [input_loop, hm, Bool.false_eq_true, if_false] at hys
          obtain ⟨zs, _, hzs⟩ := Option.map_eq_some'.mp hys
          simp [← hzs]
      | succ k =>
        simp only [List.get?_cons_succ]
        exact ih (some v) ys k g hys hg hm

end BCS

namespace BCS

theorem classify_iff (p : ℚ) :
    (classify p = Tier.high ↔ 30 ≤ risk_percent p) ∧
    (classify p = Tier.medium ↔ 10 ≤ risk_percent p ∧ risk_percent p < 30) ∧
    (classify p = Tier.low ↔ risk_percent p < 10) := by
  unfold classify tier_of_percent
  split_ifs with h1 h2
  · refine ⟨by simp [h1], ?_, ?_⟩
    · constructor
      · intro hh; exact absurd hh (by simp)
      · rintro ⟨-, hb⟩; exfalso; linarith
    · constructor
      · intro hh; exact absurd hh (by simp)
      · intro hb; exfalso; linarith
  · refine ⟨?_, ?_, ?_⟩
    · exact ⟨fun hh => absurd hh (by simp), fun h30 => absurd h30 h1⟩
    · exact ⟨fun _ => ⟨h2, not_le.mp h1⟩, fun _ => rfl⟩
    · constructor
      · intro hh; exact absurd hh (by simp)
      · intro hb; exfalso; linarith
  · refine ⟨?_, ?_, ?_⟩
    · exact ⟨fun hh => absurd hh (by simp), fun h30 => absurd h30 h1⟩
    · exact ⟨fun hh => absurd hh (by simp), fun hab => absurd hab.1 h2⟩
    · exact ⟨fun _ => not_le.mp h2, fun _ => rfl⟩

end BCS

namespace BCS

/-! Section: Claim theorems -/

/-- Claim C1, counterexample: the scored probability 0.299996 is strictly
below the 0.30 threshold, yet the code assigns the High tier, because the
chain compares the rounded `risk_percent` (30.00) and not the full-precision
probability.  So "High iff p ≥ 0.30" is false as stated. -/
theorem c1_threshold_counterexample :
    classify (299996/1000000) = Tier.high ∧ ¬ (3/10 : ℚ) ≤ 299996/1000000 := by
  constructor
  · norm_num [classify, tier_of_percent, risk_percent, pyRound2, roundHalfEven,
      Rat.floor]
  · norm_num

/-- Claim C1 (amended): the tier is determined by the rounded percentage
`risk_percent p = round(100p, 2)`: Low iff it is below 10, Medium iff it is
in [10, 30), High iff it is at least 30; the boundary probabilities exactly
0.10 and exactly 0.30 still land in the higher tier (Medium and High), and
each tier carries its fixed label, advice string and display color. -/
theorem c1_tier_classification (p : ℚ) :
    (classify p = Tier.high ↔ 30 ≤ risk_percent p) ∧
    (classify p = Tier.medium ↔ 10 ≤ risk_percent p ∧ risk_percent p < 30) ∧
    (classify p = Tier.low ↔ risk_percent p < 10) ∧
    classify (1/10) = Tier.medium ∧
    classify (3/10) = Tier.high ∧
    tier_label Tier.high = "高危" ∧
    tier_advice Tier.high = "立即住院监测，优先安排内镜检查，考虑预防性TIPS" ∧
    tier_color Tier.high = "#FF4B4B" ∧
    tier_label Tier.medium = "中危" ∧
    tier_advice Tier.medium = "每2周门诊随访，启动非选择性β受体阻滞剂治疗" ∧
    tier_color Tier.medium = "#FFA500" ∧
    tier_label Tier.low = "低危" ∧
    tier_advice Tier.low = "每3个月常规随访，维持抗凝治疗" ∧
    tier_color Tier.low = "#2E86C1" := by
  refine ⟨(classify_iff p).1, (classify_iff p).2.1, (classify_iff p).2.2,
    ?_, ?_, rfl, rfl, rfl, rfl, rfl, rfl, rfl, rfl, rfl⟩
  · norm_num [classify, tier_of_percent, risk_percent, pyRound2, roundHalfEven,
      Rat.floor]
  · norm_num [classify, tier_of_percent, risk_percent, pyRound2, roundHalfEven,
      Rat.floor]

/-- Claim C2, counterexample: for the scored probability 0.099996 the
full-precision value is below the 0.10 threshold (so full-precision
thresholding would give Low), but the code assigns Medium, because the
comparison is made against the rounded `risk_percent` value 10.00. -/
theorem c2_rounding_counterexample :
    classify (99996/1000000) = Tier.medium ∧ (99996/1000000 : ℚ) < 1/10 := by
  constructor
  · norm_num [classify, tier_of_percent, risk_percent, pyRound2, roundHalfEven,
      Rat.floor]
  · norm_num

/-- Claim C2 (amended): the probability is rounded once, to two decimal
places of the displayed percentage, and that single rounded value is used
both for the tier thresholds and for display: the tier depends only on
`risk_percent p`, and the result panel rendered by the handler carries
exactly `risk_percent prob` together with the strings of the tier derived
from it.  The explanation computation receives the raw input row, not the
probability, so it is unaffected by the rounding. -/
theorem c2_rounded_value_used (p q : ℚ) (m : ModelObj) (xs : List ℚ)
    (shap_ok render_ok : Bool) (prob : ℚ) :
    (risk_percent p = risk_percent q → classify p = classify q) ∧
    (scored_prob m xs = some prob →
      UIElem.resultPanel (risk_percent prob) (tier_label (classify prob))
          (tier_advice (classify prob)) (tier_color (classify prob)) ∈
        run_predict m xs shap_ok render_ok) := by
  constructor
  · intro h
    unfold classify
    rw [h]
  · intro hs
    simp only [run_predict, hs]
    split_ifs <;> simp [classify]

/-- Witness for `c2_rounded_value_used` at the spec's sample input. -/
theorem c2_rounded_value_used_witness :
    classify 0 = classify 0 ∧
    UIElem.resultPanel (risk_percent (1/2)) (tier_label (classify (1/2)))
        (tier_advice (classify (1/2))) (tier_color (classify (1/2))) ∈
      run_predict modelW inputW false false := by
  have h := c2_rounded_value_used 0 0 modelW inputW false false (1/2)
  exact ⟨h.1 rfl, h.2 (by norm_num [scored_prob, predict_proba, modelW, inputW])⟩

/-- Claim C9: the concrete boundary scenarios hold on the implemented
procedure: classify(0.10) is Medium, classify(0.30) is High,
classify(0.0999) is Low and classify(0.9) is High. -/
theorem c9_boundary_scenarios :
    classify (1/10) = Tier.medium ∧ classify (3/10) = Tier.high ∧
    classify (999/10000) = Tier.low ∧ classify (9/10) = Tier.high := by
  refine ⟨?_, ?_, ?_, ?_⟩ <;>
    norm_num [classify, tier_of_percent, risk_percent, pyRound2, roundHalfEven,
      Rat.floor]

end BCS

namespace BCS

/-- Claim C3, counterexample: `load_assets` succeeds on an environment whose
feature-name list has length 1 while the classifier expects 4 input features;
no feature-count validation ever runs, so the claimed third check does not
exist. -/
theorem c3_width_counterexample :
    load_assets envShortNames = LoadResult.ok modelW ["NLR"] ∧
    modelW.n_features_in_ = 4 ∧ (["NLR"] : List String).length = 1 :=
  ⟨rfl, rfl, rfl⟩

/-- Claim C3 (amended): at startup the loader validates that the classifier
is an XGBClassifier and that its learned class count equals exactly 2 (it
also requires the assets directory, both pickle loads and the explainer
construction to succeed), and every violation hits the fatal error branch;
but the feature-name list's length is never compared with the classifier's
expected input width: loading succeeds exactly when the listed conditions
hold, with no length condition among them. -/
theorem c3_load_validation (env : AssetEnv) (m : ModelObj) (fns : List String) :
    load_assets env = LoadResult.ok m fns ↔
      env.assets_dir_exists = true ∧ env.model_file = some m ∧
      m.isXGBClassifier = true ∧ m.n_classes_ = 2 ∧
      env.explainer_init_ok = true ∧ env.feature_names_file = some fns := by
  rcases env with ⟨dir, mf, eok, fnf⟩
  simp only [load_assets]
  cases dir with
  | false => simp
  | true =>
    simp only [Bool.true_eq_false, if_false, ite_false]
    cases mf with
    | none => simp
    | some m0 =>
      cases fnf with
      | none => split_ifs <;> simp
      | some l =>
        dsimp only
        by_cases hx : m0.isXGBClassifier = false
        · rw [if_pos hx]
          simp only [reduceCtorEq, false_iff]
          rintro ⟨-, hm, hxm, -, -, -⟩
          obtain rfl := Option.some_inj.mp hm
          rw [hxm] at hx
          exact absurd hx (by simp)
        · rw [if_neg hx]
          by_cases hc : m0.n_classes_ ≠ 2
          · rw [if_pos hc]
            simp only [reduceCtorEq, false_iff]
            rintro ⟨-, hm, -, hcm, -, -⟩
            obtain rfl := Option.some_inj.mp hm
            exact hc hcm
          · rw [if_neg hc]
            by_cases he : eok = false
            · rw [if_pos he]
              simp only [reduceCtorEq, false_iff]
              rintro ⟨-, -, -, -, hem, -⟩
              rw [hem] at he
              exact absurd he (by simp)
            · rw [if_neg he]
              simp only [LoadResult.ok.injEq, Option.some_inj]
              constructor
              · rintro ⟨rfl, rfl⟩
                refine ⟨trivial, rfl, ?_, ?_, ?_, rfl⟩
                · cases hb : m0.isXGBClassifier
                  · exact absurd hb hx
                  · rfl
                · exact not_not.mp hc
                · cases hb : eok
                  · exact absurd hb he
                  · rfl
              · rintro ⟨-, hm, -, -, -, hl⟩
                exact ⟨hm, hl⟩

/-- Claim C5: on any asset-loading failure, including a missing model file,
the script reaches the branch that shows the error and calls `sys.exit(1)`;
the application state is never constructed, so no prediction is ever served:
the load fails exactly when startup yields no application state. -/
theorem c5_load_failure_exits (env : AssetEnv) :
    ((env.assets_dir_exists = false ∨ env.model_file = none) →
      load_assets env = LoadResult.exitError) ∧
    (load_assets env = LoadResult.exitError ↔ startApp env = none) := by
  constructor
  · rintro (hdir | hmf)
    · simp [load_assets, hdir]
    · simp [load_assets, hmf]
  · cases hl : load_assets env <;> simp [startApp, hl]

/-- Witness for `c5_load_failure_exits`: the missing-model environment
aborts startup and serves nothing. -/
theorem c5_load_failure_exits_witness :
    load_assets envNoModel = LoadResult.exitError ∧ startApp envNoModel = none := by
  have h := c5_load_failure_exits envNoModel
  exact ⟨h.1 (Or.inr rfl), h.2.mp (h.1 (Or.inr rfl))⟩

end BCS

namespace BCS

/-- Claim C6: when the SHAP computation or the plot rendering fails after a
successful prediction, the handler still emits the result panel (with the
correct rounded percentage and the tier's own strings) followed by an in-UI
error message, and emits no explanation image; the failure is absorbed by the
`except` branch rather than crashing the run. -/
theorem c6_explanation_failure_recoverable (m : ModelObj) (xs : List ℚ)
    (prob : ℚ) (shap_ok render_ok : Bool)
    (hp : scored_prob m xs = some prob)
    (hfail : shap_ok = false ∨ render_ok = false) :
    UIElem.resultPanel (risk_percent prob) (tier_label (classify prob))
        (tier_advice (classify prob)) (tier_color (classify prob)) ∈
      run_predict m xs shap_ok render_ok ∧
    UIElem.errorMsg ∈ run_predict m xs shap_ok render_ok ∧
    UIElem.shapImage ∉ run_predict m xs shap_ok render_ok := by
  have hcase : shap_ok = false ∨ (shap_ok = true ∧ render_ok = false) := by
    rcases hfail with h | h
    · exact Or.inl h
    · cases hs : shap_ok
      · exact Or.inl rfl
      · exact Or.inr ⟨rfl, h⟩
  rcases hcase with h | ⟨hs, hr⟩
  · simp [run_predict, hp, h, classify]
  · simp [run_predict, hp, hs, hr, classify]

/-- Witness for `c6_explanation_failure_recoverable`: SHAP fails on the
sample input but the result panel is still shown alongside the error. -/
theorem c6_explanation_failure_recoverable_witness :
    UIElem.resultPanel (risk_percent (1/2)) (tier_label (classify (1/2)))
        (tier_advice (classify (1/2))) (tier_color (classify (1/2))) ∈
      run_predict modelW inputW false true ∧
    UIElem.errorMsg ∈ run_predict modelW inputW false true ∧
    UIElem.shapImage ∉ run_predict modelW inputW false true :=
  c6_explanation_failure_recoverable modelW inputW (1/2) false true
    (by norm_num [scored_prob, predict_proba, modelW, inputW]) (Or.inl rfl)

/-- Claim C7: a width mismatch between the input row and the classifier's
expected feature count makes `predict_proba` raise, so no probability is
produced, the handler run reduces to a single in-UI error message (and
nothing else — the session stays usable); whenever a probability is
produced the width invariant held, and the collected input vector always
has one entry per feature name. -/
theorem c7_length_mismatch (m : ModelObj) (xs : List ℚ)
    (shap_ok render_ok : Bool) (vals : String → ℚ) (fs : List String)
    (ys : List ℚ) :
    (xs.length ≠ m.n_features_in_ →
      scored_prob m xs = none ∧
      run_predict m xs shap_ok render_ok = [UIElem.errorMsg]) ∧
    ((scored_prob m xs).isSome = true → xs.length = m.n_features_in_) ∧
    (input_values vals fs = some ys → ys.length = fs.length) := by
  refine ⟨?_, ?_, fun h => input_loop_length vals fs none ys h⟩
  · intro h
    have hnone : scored_prob m xs = none := by
      simp [scored_prob, predict_proba, h]
    exact ⟨hnone, by simp [run_predict, hnone]⟩
  · intro hs
    by_contra h
    simp [scored_prob, predict_proba, h] at hs

/-- Witness for `c7_length_mismatch`: a 1-entry row against the 4-feature
classifier yields no probability and only an error element. -/
theorem c7_length_mismatch_witness :
    scored_prob modelW [1] = none ∧
    run_predict modelW [1] true true = [UIElem.errorMsg] ∧
    ([] : List ℚ).length = ([] : List String).length := by
  have h := c7_length_mismatch modelW [1] true true (fun _ => 0) [] []
  have hmm := h.1 (by norm_num [modelW])
  exact ⟨hmm.1, hmm.2, h.2.2 rfl⟩

/-- Claim C8, counterexample: when the explainer returns per-class
contribution arrays but a scalar expected value, the selection branch takes
`shap_values[0]` — the negative-class array — not the positive-class one, so
the positive class is not selected in every per-class case. -/
theorem c8_negative_class_counterexample :
    sv_select (ExpectedValue.scalar (1/2))
        (ShapValuesShape.listPerClass [[1]] [[2]]) = PyValue.mat [[1]] ∧
    PyValue.mat [[(1 : ℚ)]] ≠ PyValue.mat [[2]] := by
  refine ⟨rfl, ?_⟩
  simp only [ne_eq, PyValue.mat.injEq, List.cons.injEq, and_true]
  norm_num

/-- Claim C8 (amended): index-1 selection is driven solely by the shape of
`expected_value`: with an array-shaped expected value the positive-class
baseline is taken, together with the positive-class first row when
`shap_values` is a per-class list (or the plain first row otherwise); but
with a scalar expected value and a per-class `shap_values` list the code
selects the whole negative-class (index 0) array. -/
theorem c8_class_index_selection (v v0 v1 : ℚ) (c0 c1 rows : List (List ℚ)) :
    base_value (ExpectedValue.array2 v0 v1) = v1 ∧
    sv_select (ExpectedValue.array2 v0 v1) (ShapValuesShape.listPerClass c0 c1) =
      PyValue.vec (c1.headD []) ∧
    sv_select (ExpectedValue.array2 v0 v1) (ShapValuesShape.arr rows) =
      PyValue.vec (rows.headD []) ∧
    base_value (ExpectedValue.scalar v) = v ∧
    sv_select (ExpectedValue.scalar v) (ShapValuesShape.listPerClass c0 c1) =
      PyValue.mat c0 ∧
    sv_select (ExpectedValue.scalar v) (ShapValuesShape.arr rows) =
      PyValue.vec (rows.headD []) :=
  ⟨rfl, rfl, rfl, rfl, rfl, rfl⟩

/-- Claim C10: the input loop fails at render time (unbound `val`) when the
first feature name matches none of the four substring categories; when it
does produce a vector, the vector has one entry per feature name, and any
later unmatched feature receives the previous feature's value (a stale
duplicate) rather than a fresh default. -/
theorem c10_input_loop_behavior (vals : String → ℚ) (f g : String)
    (fs : List String) (i : ℕ) (xs : List ℚ) :
    (matched f = false → input_values vals (f :: fs) = none) ∧
    (input_values vals fs = some xs → xs.length = fs.length) ∧
    (input_values vals fs = some xs → fs.get? (i + 1) = some g →
      matched g = false → xs.get? (i + 1) = xs.get? i) := by
  refine ⟨?_, fun h => input_loop_length vals fs none xs h,
    fun h hg hm => input_loop_stale vals fs none xs i g h hg hm⟩
  intro hm
  simp [input_values, input_loop, hm]

/-- Witness for `c10_input_loop_behavior`: an unmatched first feature fails;
`["NLR", "x"]` yields a vector of length 2 whose unmatched second entry
duplicates the first. -/
theorem c10_input_loop_behavior_witness :
    input_values (fun _ => (0 : ℚ)) ("x" :: ["NLR", "x"]) = none ∧
    ([0, 0] : List ℚ).length = (["NLR", "x"] : List String).length ∧
    ([0, 0] : List ℚ).get? 1 = ([0, 0] : List ℚ).get? 0 := by
  have h := c10_input_loop_behavior (fun _ => (0 : ℚ)) "x" "x" ["NLR", "x"] 0 [0, 0]
  exact ⟨h.1 rfl, h.2.1 rfl, h.2.2 rfl rfl rfl⟩

end BCS
